import Mathlib

/-!
Verification development for the mteck-resume-parser repository
(package resumodel: models.py, loader.py, generator.py, exceptions.py).

The Python code is shallowly embedded: parsed YAML documents become an
inductive tree, pydantic record models become structures with explicit
validators from YAML trees, the three loader functions and the LaTeX
escape filter are translated as executable Lean functions, and the
exception taxonomy becomes an error type returned through Except.
-/

namespace Resumodel

/-- A parsed YAML document, as produced by yaml.safe_load: scalars that the
record schemas accept are strings, plus null, sequences and mappings.
Mappings keep the key order of the document (Python dicts preserve
insertion order and YAML rejects duplicate keys). -/
inductive Yaml where
  | null : Yaml
  | str (s : String) : Yaml
  | list (xs : List Yaml) : Yaml
  | map (entries : List (String × Yaml)) : Yaml

/-- Python truthiness of a parsed YAML value: None, empty string, empty
sequence and empty mapping are falsy. -/
def Yaml.falsy : Yaml → Bool
  | .null => true
  | .str s => s = ""
  | .list xs => xs.isEmpty
  | .map m => m.isEmpty

/-- First-match lookup in an association list keyed by strings, matching
Python dict lookup (keys are unique in a parsed YAML mapping). -/
def lookupR {α : Type} (m : List (String × α)) (k : String) : Option α :=
  match m with
  | [] => none
  | (k', v) :: rest => if k' = k then some v else lookupR rest k

/-- Modelled from the spec: URL-typed fields, when present, must parse as
valid absolute URLs (pydantic HttpUrl, a third-party library that is not
part of the repository sources); modelled as requiring an explicit http
or https scheme. -/
def isValidUrl (s : String) : Bool :=
  decide (List.IsPrefix "http://".data s.data) ||
  decide (List.IsPrefix "https://".data s.data)

/-- models.py PersonalInfo: name required, the rest optional; URL-typed
fields hold validated URL strings. -/
structure PersonalInfo where
  name : String
  phone : Option String := none
  email : Option String := none
  linkedin : Option String := none
  github : Option String := none
  blog : Option String := none
  projects_page : Option String := none
  pypi : Option String := none
  passport_dev : Option String := none
  location : Option String := none
deriving DecidableEq, Repr

/-- models.py SkillCategory. -/
structure SkillCategory where
  category : String
  items : List String
deriving DecidableEq, Repr

/-- models.py Experience: location defaults to the empty string,
bullet_points to the empty list. -/
structure Experience where
  title : String
  company : String
  date : String
  location : String := ""
  bullet_points : List String := []
  link : Option String := none
deriving DecidableEq, Repr

/-- models.py Project. -/
structure Project where
  name : String
  link : Option String := none
  description : String
deriving DecidableEq, Repr

/-- models.py Education. -/
structure Education where
  institution : String
  location : String
  degree : String
  notes : Option String := none
deriving DecidableEq, Repr

/-- models.py Certification: credential_link is a required URL. -/
structure Certification where
  name : String
  issuer : String
  credential_link : String
deriving DecidableEq, Repr

/-- models.py ResearchPaper.status closed enumeration. -/
inductive PaperStatus where
  | published
  | inPreparation
  | submitted
  | preprint
deriving DecidableEq, Repr

/-- The literal string of a ResearchPaper status. -/
def PaperStatus.toStr : PaperStatus → String
  | .published => "Published"
  | .inPreparation => "In Preparation"
  | .submitted => "Submitted"
  | .preprint => "Preprint"

/-- models.py ResearchPaper. -/
structure ResearchPaper where
  title : String
  authors : String
  status : PaperStatus
  link : Option String := none
deriving DecidableEq, Repr

/-- models.py ClubActivity. -/
structure ClubActivity where
  name : String
  role : String
  date : String
  description : Option String := none
  link : Option String := none
deriving DecidableEq, Repr

/-- models.py Hobby. -/
structure Hobby where
  name : String
  link : Option String := none
deriving DecidableEq, Repr

/-- models.py Profile: seven ordered ID reference lists, all defaulting to
empty, plus optional inline skills. -/
structure Profile where
  title : String
  summary : String
  skills : Option (List SkillCategory) := none
  experiences : List String := []
  projects : List String := []
  education : List String := []
  certifications : List String := []
  research_papers : List String := []
  clubs_and_associations : List String := []
  hobbies : List String := []
deriving DecidableEq, Repr

/-- A validated record as stored at runtime in a SharedData mapping.
load_shared_data stores items via setattr under the top-level key found in
the file, so at runtime a mapping can hold records of any of the eight
model classes; the sum type records which class validated the item. -/
inductive RecordV where
  | exp (e : Experience)
  | proj (p : Project)
  | edu (e : Education)
  | cert (c : Certification)
  | paper (p : ResearchPaper)
  | club (c : ClubActivity)
  | hobby (h : Hobby)
  | profile (p : Profile)
deriving DecidableEq, Repr

/-- models.py SharedData: one mapping per keyed record type plus profiles,
all defaulting to empty. -/
structure SharedData where
  experiences : List (String × RecordV) := []
  projects : List (String × RecordV) := []
  education : List (String × RecordV) := []
  certifications : List (String × RecordV) := []
  research_papers : List (String × RecordV) := []
  clubs_and_associations : List (String × RecordV) := []
  hobbies : List (String × RecordV) := []
  profiles : List (String × RecordV) := []
deriving DecidableEq, Repr

/-- models.py ResumeSections: the resolved, typed section lists. -/
structure ResumeSections where
  skills : Option (List SkillCategory) := none
  experiences : List Experience := []
  projects : List Project := []
  education : List Education := []
  certifications : List Certification := []
  research_papers : List ResearchPaper := []
  clubs_and_associations : List ClubActivity := []
  hobbies : List Hobby := []
deriving DecidableEq, Repr

/-- models.py TemplateContext. -/
structure TemplateContext where
  personal_info : PersonalInfo
  title : String
  summary : String
  sections : ResumeSections
deriving DecidableEq, Repr

/-- exceptions.py taxonomy, plus a constructor for exceptions that escape
the taxonomy (uncaught built-in Python exceptions such as TypeError from
indexing a non-mapping, or ValueError from setattr on an unknown field). -/
inductive Err where
  | config (msg : String)
  | data (msg : String)
  | template (msg : String)
  | pyError (msg : String)
deriving DecidableEq, Repr

/-- Validation of a required string field value (pydantic: the key must
be present and hold a string). -/
def reqStrV : Option Yaml → String → Except String String
  | some (.str s), _ => .ok s
  | some _, k => .error (k ++ ": expected a string")
  | none, k => .error (k ++ ": field required")

/-- Read a required string field of a record mapping. -/
def reqStr (m : List (String × Yaml)) (k : String) : Except String String :=
  reqStrV (lookupR m k) k

/-- Validation of an optional string field value (absent or null gives
none). -/
def optStrV : Option Yaml → String → Except String (Option String)
  | some (.str s), _ => .ok (some s)
  | some .null, _ => .ok none
  | some _, k => .error (k ++ ": expected a string")
  | none, _ => .ok none

/-- Read an optional string field. -/
def optStr (m : List (String × Yaml)) (k : String) : Except String (Option String) :=
  optStrV (lookupR m k) k

/-- Validation of a string field value with a default used when the key
is absent. -/
def defStrV : Option Yaml → String → String → Except String String
  | some (.str s), _, _ => .ok s
  | some _, k, _ => .error (k ++ ": expected a string")
  | none, _, d => .ok d

/-- Read a string field with a default used when the key is absent. -/
def defStr (m : List (String × Yaml)) (k : String) (d : String) : Except String String :=
  defStrV (lookupR m k) k d

/-- Validation of a required URL field value (pydantic HttpUrl). -/
def reqUrlV : Option Yaml → String → Except String String
  | some (.str s), k => if isValidUrl s then .ok s else .error (k ++ ": invalid URL")
  | some _, k => .error (k ++ ": expected a URL string")
  | none, k => .error (k ++ ": field required")

/-- Read a required URL field. -/
def reqUrl (m : List (String × Yaml)) (k : String) : Except String String :=
  reqUrlV (lookupR m k) k

/-- Validation of an optional URL field value (absent or null gives
none). -/
def optUrlV : Option Yaml → String → Except String (Option String)
  | some (.str s), k => if isValidUrl s then .ok (some s) else .error (k ++ ": invalid URL")
  | some .null, _ => .ok none
  | some _, k => .error (k ++ ": expected a URL string")
  | none, _ => .ok none

/-- Read an optional URL field. -/
def optUrl (m : List (String × Yaml)) (k : String) : Except String (Option String) :=
  optUrlV (lookupR m k) k

/-- Validate that every element of a YAML sequence is a string. -/
def strList : List Yaml → Except String (List String)
  | [] => .ok []
  | .str s :: rest =>
    match strList rest with
    | .ok ss => .ok (s :: ss)
    | .error e => .error e
  | _ :: _ => .error "expected a string item"

/-- Validation of a list-of-strings field value with default empty list
when absent. -/
def defStrListV : Option Yaml → String → Except String (List String)
  | some (.list xs), _ => strList xs
  | some _, k => .error (k ++ ": expected a list")
  | none, _ => .ok []

/-- Read a list-of-strings field with default empty list when absent. -/
def defStrList (m : List (String × Yaml)) (k : String) : Except String (List String) :=
  defStrListV (lookupR m k) k

/-- pydantic validation of PersonalInfo from a parsed YAML value. -/
def validatePersonalInfo : Yaml → Except String PersonalInfo
  | .map m =>
    match reqStr m "name" with
    | .error e => .error e
    | .ok name =>
    match optStr m "phone" with
    | .error e => .error e
    | .ok phone =>
    match optStr m "email" with
    | .error e => .error e
    | .ok email =>
    match optUrl m "linkedin" with
    | .error e => .error e
    | .ok linkedin =>
    match optUrl m "github" with
    | .error e => .error e
    | .ok github =>
    match optUrl m "blog" with
    | .error e => .error e
    | .ok blog =>
    match optUrl m "projects_page" with
    | .error e => .error e
    | .ok projects_page =>
    match optUrl m "pypi" with
    | .error e => .error e
    | .ok pypi =>
    match optUrl m "passport_dev" with
    | .error e => .error e
    | .ok passport_dev =>
    match optStr m "location" with
    | .error e => .error e
    | .ok location =>
      .ok ⟨name, phone, email, linkedin, github, blog, projects_page, pypi,
           passport_dev, location⟩
  | _ => .error "expected a mapping"

/-- pydantic validation of SkillCategory. -/
def validateSkillCategory : Yaml → Except String SkillCategory
  | .map m =>
    match reqStr m "category" with
    | .error e => .error e
    | .ok category =>
    match lookupR m "items" with
    | some (.list xs) =>
      match strList xs with
      | .error e => .error e
      | .ok items => .ok ⟨category, items⟩
    | some _ => .error "items: expected a list"
    | none => .error "items: field required"
  | _ => .error "expected a mapping"

/-- pydantic validation of a list of SkillCategory. -/
def skillCatList : List Yaml → Except String (List SkillCategory)
  | [] => .ok []
  | y :: rest =>
    match validateSkillCategory y with
    | .error e => .error e
    | .ok c =>
      match skillCatList rest with
      | .error e => .error e
      | .ok cs => .ok (c :: cs)

/-- pydantic validation of Experience. -/
def validateExperience : Yaml → Except String Experience
  | .map m =>
    match reqStr m "title" with
    | .error e => .error e
    | .ok title =>
    match reqStr m "company" with
    | .error e => .error e
    | .ok company =>
    match reqStr m "date" with
    | .error e => .error e
    | .ok date =>
    match defStr m "location" "" with
    | .error e => .error e
    | .ok location =>
    match defStrList m "bullet_points" with
    | .error e => .error e
    | .ok bullet_points =>
    match optUrl m "link" with
    | .error e => .error e
    | .ok link =>
      .ok ⟨title, company, date, location, bullet_points, link⟩
  | _ => .error "expected a mapping"

/-- pydantic validation of Project. -/
def validateProject : Yaml → Except String Project
  | .map m =>
    match reqStr m "name" with
    | .error e => .error e
    | .ok name =>
    match optUrl m "link" with
    | .error e => .error e
    | .ok link =>
    match reqStr m "description" with
    | .error e => .error e
    | .ok description => .ok ⟨name, link, description⟩
  | _ => .error "expected a mapping"

/-- pydantic validation of Education. -/
def validateEducation : Yaml → Except String Education
  | .map m =>
    match reqStr m "institution" with
    | .error e => .error e
    | .ok institution =>
    match reqStr m "location" with
    | .error e => .error e
    | .ok location =>
    match reqStr m "degree" with
    | .error e => .error e
    | .ok degree =>
    match optStr m "notes" with
    | .error e => .error e
    | .ok notes => .ok ⟨institution, location, degree, notes⟩
  | _ => .error "expected a mapping"

/-- pydantic validation of Certification. -/
def validateCertification : Yaml → Except String Certification
  | .map m =>
    match reqStr m "name" with
    | .error e => .error e
    | .ok name =>
    match reqStr m "issuer" with
    | .error e => .error e
    | .ok issuer =>
    match reqUrl m "credential_link" with
    | .error e => .error e
    | .ok credential_link => .ok ⟨name, issuer, credential_link⟩
  | _ => .error "expected a mapping"

/-- pydantic validation of the ResearchPaper status literal. -/
def parseStatus (s : String) : Except String PaperStatus :=
  if s = "Published" then .ok .published
  else if s = "In Preparation" then .ok .inPreparation
  else if s = "Submitted" then .ok .submitted
  else if s = "Preprint" then .ok .preprint
  else .error "status: not a permitted literal"

/-- pydantic validation of ResearchPaper. -/
def validateResearchPaper : Yaml → Except String ResearchPaper
  | .map m =>
    match reqStr m "title" with
    | .error e => .error e
    | .ok title =>
    match reqStr m "authors" with
    | .error e => .error e
    | .ok authors =>
    match reqStr m "status" with
    | .error e => .error e
    | .ok s =>
    match parseStatus s with
    | .error e => .error e
    | .ok status =>
    match optUrl m "link" with
    | .error e => .error e
    | .ok link => .ok ⟨title, authors, status, link⟩
  | _ => .error "expected a mapping"

/-- pydantic validation of ClubActivity. -/
def validateClubActivity : Yaml → Except String ClubActivity
  | .map m =>
    match reqStr m "name" with
    | .error e => .error e
    | .ok name =>
    match reqStr m "role" with
    | .error e => .error e
    | .ok role =>
    match reqStr m "date" with
    | .error e => .error e
    | .ok date =>
    match optStr m "description" with
    | .error e => .error e
    | .ok description =>
    match optUrl m "link" with
    | .error e => .error e
    | .ok link => .ok ⟨name, role, date, description, link⟩
  | _ => .error "expected a mapping"

/-- pydantic validation of Hobby. -/
def validateHobby : Yaml → Except String Hobby
  | .map m =>
    match reqStr m "name" with
    | .error e => .error e
    | .ok name =>
    match optUrl m "link" with
    | .error e => .error e
    | .ok link => .ok ⟨name, link⟩
  | _ => .error "expected a mapping"

/-- pydantic validation of the optional skills field of a Profile. -/
def optSkills (m : List (String × Yaml)) : Except String (Option (List SkillCategory)) :=
  match lookupR m "skills" with
  | some (.list xs) =>
    match skillCatList xs with
    | .error e => .error e
    | .ok cs => .ok (some cs)
  | some .null => .ok none
  | some _ => .error "skills: expected a list"
  | none => .ok none

/-- pydantic validation of Profile. -/
def validateProfile : Yaml → Except String Profile
  | .map m =>
    match reqStr m "title" with
    | .error e => .error e
    | .ok title =>
    match reqStr m "summary" with
    | .error e => .error e
    | .ok summary =>
    match optSkills m with
    | .error e => .error e
    | .ok skills =>
    match defStrList m "experiences" with
    | .error e => .error e
    | .ok experiences =>
    match defStrList m "projects" with
    | .error e => .error e
    | .ok projects =>
    match defStrList m "education" with
    | .error e => .error e
    | .ok education =>
    match defStrList m "certifications" with
    | .error e => .error e
    | .ok certifications =>
    match defStrList m "research_papers" with
    | .error e => .error e
    | .ok research_papers =>
    match defStrList m "clubs_and_associations" with
    | .error e => .error e
    | .ok clubs_and_associations =>
    match defStrList m "hobbies" with
    | .error e => .error e
    | .ok hobbies =>
      .ok ⟨title, summary, skills, experiences, projects, education,
           certifications, research_papers, clubs_and_associations, hobbies⟩
  | _ => .error "expected a mapping"

/-- The state of one file of a data directory: absent, present but failing
yaml.safe_load, or present with a parse result. -/
inductive FileState where
  | absent
  | badYaml
  | content (y : Yaml)

/-- A data directory as the loader sees it: its path, whether it exists,
and the state of each well-known file. Files with other names are never
read by the loader. -/
structure DataDir where
  path : String := "data"
  dirExists : Bool := true
  personal_info_yml : FileState := .absent
  experiences_yml : FileState := .absent
  projects_yml : FileState := .absent
  education_yml : FileState := .absent
  certifications_yml : FileState := .absent
  research_papers_yml : FileState := .absent
  clubs_and_associations_yml : FileState := .absent
  hobbies_yml : FileState := .absent
  profiles_yml : FileState := .absent

/-- Python membership test performed by the expression
key in data in load_personal_info: key lookup on a mapping, element
equality on a sequence, substring containment on a string. -/
def pyContains (y : Yaml) (k : String) : Bool :=
  match y with
  | .map m => m.any (fun p => p.1 = k)
  | .list xs => xs.any (fun v => match v with | .str s => s = k | _ => false)
  | .str s => decide (List.IsInfix k.data s.data)
  | .null => false

/-- loader.py load_personal_info: ConfigError when the file is absent or
not parseable as YAML; DataError when the parsed value is falsy or does
not contain the key personal_info, or when validation fails. Indexing a
present non-mapping value that passes the containment test raises an
uncaught TypeError. -/
def load_personal_info (d : DataDir) : Except Err PersonalInfo :=
  match d.personal_info_yml with
  | .absent =>
    .error (.config ("Personal info file not found: " ++ d.path ++ "/personal_info.yml"))
  | .badYaml =>
    .error (.config ("Invalid YAML in " ++ d.path ++ "/personal_info.yml"))
  | .content y =>
    if y.falsy || !(pyContains y "personal_info") then
      .error (.data "personal_info.yml must contain 'personal_info' key")
    else
      match y with
      | .map m =>
        match lookupR m "personal_info" with
        | some v =>
          match validatePersonalInfo v with
          | .ok pi => .ok pi
          | .error e =>
            .error (.data ("Validation failed for " ++ d.path ++ "/personal_info.yml: " ++ e))
        | none => .error (.pyError "KeyError")
      | _ => .error (.pyError "TypeError: string indices must be integers")

/-- Validation of the eight record models, tagged into the runtime sum. -/
def validateExperienceR (y : Yaml) : Except String RecordV :=
  (validateExperience y).map RecordV.exp

/-- Project validation tagged into the runtime sum. -/
def validateProjectR (y : Yaml) : Except String RecordV :=
  (validateProject y).map RecordV.proj

/-- Education validation tagged into the runtime sum. -/
def validateEducationR (y : Yaml) : Except String RecordV :=
  (validateEducation y).map RecordV.edu

/-- Certification validation tagged into the runtime sum. -/
def validateCertificationR (y : Yaml) : Except String RecordV :=
  (validateCertification y).map RecordV.cert

/-- ResearchPaper validation tagged into the runtime sum. -/
def validateResearchPaperR (y : Yaml) : Except String RecordV :=
  (validateResearchPaper y).map RecordV.paper

/-- ClubActivity validation tagged into the runtime sum. -/
def validateClubActivityR (y : Yaml) : Except String RecordV :=
  (validateClubActivity y).map RecordV.club

/-- Hobby validation tagged into the runtime sum. -/
def validateHobbyR (y : Yaml) : Except String RecordV :=
  (validateHobby y).map RecordV.hobby

/-- Profile validation tagged into the runtime sum. -/
def validateProfileR (y : Yaml) : Except String RecordV :=
  (validateProfile y).map RecordV.profile

/-- The dict comprehension of load_shared_data: validate every item of a
top-level mapping in order; the first ValidationError aborts the whole
comprehension. -/
def validateItems (validate : Yaml → Except String RecordV) :
    List (String × Yaml) → Except String (List (String × RecordV))
  | [] => .ok []
  | (item_id, item_data) :: rest =>
    match validate item_data with
    | .error e => .error e
    | .ok r =>
      match validateItems validate rest with
      | .error e => .error e
      | .ok rs => .ok ((item_id, r) :: rs)

/-- setattr on the pydantic SharedData instance: assigning a declared
field replaces that mapping wholesale (no merge, and no re-validation
since validate_assignment is off); assigning an unknown field name raises
an uncaught ValueError. -/
def setSharedField (sh : SharedData) (key : String)
    (items : List (String × RecordV)) : Except Err SharedData :=
  if key = "experiences" then .ok { sh with experiences := items }
  else if key = "projects" then .ok { sh with projects := items }
  else if key = "education" then .ok { sh with education := items }
  else if key = "certifications" then .ok { sh with certifications := items }
  else if key = "research_papers" then .ok { sh with research_papers := items }
  else if key = "clubs_and_associations" then .ok { sh with clubs_and_associations := items }
  else if key = "hobbies" then .ok { sh with hobbies := items }
  else if key = "profiles" then .ok { sh with profiles := items }
  else .error (.pyError ("ValueError: object has no field " ++ key))

/-- Read a SharedData mapping by its field name. -/
def getSharedField (sh : SharedData) (key : String) :
    Option (List (String × RecordV)) :=
  if key = "experiences" then some sh.experiences
  else if key = "projects" then some sh.projects
  else if key = "education" then some sh.education
  else if key = "certifications" then some sh.certifications
  else if key = "research_papers" then some sh.research_papers
  else if key = "clubs_and_associations" then some sh.clubs_and_associations
  else if key = "hobbies" then some sh.hobbies
  else if key = "profiles" then some sh.profiles
  else none

/-- The top-level loop body of load_shared_data over the entries of one
file: falsy values and non-mapping values are skipped, a mapping has all
its items validated (DataError naming the file on the first failure) and
is then stored under the field named by the entry key. -/
def processEntries (filename : String) (validate : Yaml → Except String RecordV)
    (sh : SharedData) : List (String × Yaml) → Except Err SharedData
  | [] => .ok sh
  | (key, value) :: rest =>
    if value.falsy then processEntries filename validate sh rest
    else
      match value with
      | .map items =>
        match validateItems validate items with
        | .error e => .error (.data ("Validation failed for " ++ filename ++ ": " ++ e))
        | .ok vitems =>
          match setSharedField sh key vitems with
          | .error er => .error er
          | .ok sh' => processEntries filename validate sh' rest
      | _ => processEntries filename validate sh rest

/-- Processing of one well-known file by load_shared_data: an absent file
is skipped, a file with invalid YAML is skipped with a warning, a parse
result that is not a mapping is skipped with a warning, and a mapping has
its entries processed in order. -/
def processFile (filename : String) (validate : Yaml → Except String RecordV)
    (sh : SharedData) (st : FileState) : Except Err SharedData :=
  match st with
  | .absent => .ok sh
  | .badYaml => .ok sh
  | .content y =>
    match y with
    | .map entries => processEntries filename validate sh entries
    | _ => .ok sh

/-- The eight well-known files, in the insertion order of the data_files
dict of load_shared_data. -/
inductive DataFile where
  | experiences
  | projects
  | education
  | certifications
  | research_papers
  | clubs_and_associations
  | hobbies
  | profiles
deriving DecidableEq, Repr

/-- The filename of a well-known file (the data_files dict key). -/
def DataFile.filename : DataFile → String
  | .experiences => "experiences.yml"
  | .projects => "projects.yml"
  | .education => "education.yml"
  | .certifications => "certifications.yml"
  | .research_papers => "research_papers.yml"
  | .clubs_and_associations => "clubs_and_associations.yml"
  | .hobbies => "hobbies.yml"
  | .profiles => "profiles.yml"

/-- The record model class associated with a well-known filename (the
data_files dict value). -/
def DataFile.validator : DataFile → Yaml → Except String RecordV
  | .experiences => validateExperienceR
  | .projects => validateProjectR
  | .education => validateEducationR
  | .certifications => validateCertificationR
  | .research_papers => validateResearchPaperR
  | .clubs_and_associations => validateClubActivityR
  | .hobbies => validateHobbyR
  | .profiles => validateProfileR

/-- The state of a well-known file in a data directory. -/
def DataFile.state : DataFile → DataDir → FileState
  | .experiences, d => d.experiences_yml
  | .projects, d => d.projects_yml
  | .education, d => d.education_yml
  | .certifications, d => d.certifications_yml
  | .research_papers, d => d.research_papers_yml
  | .clubs_and_associations, d => d.clubs_and_associations_yml
  | .hobbies, d => d.hobbies_yml
  | .profiles, d => d.profiles_yml

/-- Replace the state of one well-known file in a data directory. -/
def DataFile.setState : DataFile → DataDir → FileState → DataDir
  | .experiences, d, st => { d with experiences_yml := st }
  | .projects, d, st => { d with projects_yml := st }
  | .education, d, st => { d with education_yml := st }
  | .certifications, d, st => { d with certifications_yml := st }
  | .research_papers, d, st => { d with research_papers_yml := st }
  | .clubs_and_associations, d, st => { d with clubs_and_associations_yml := st }
  | .hobbies, d, st => { d with hobbies_yml := st }
  | .profiles, d, st => { d with profiles_yml := st }

/-- The iteration order of load_shared_data over data_files.items(). -/
def fileOrder : List DataFile :=
  [.experiences, .projects, .education, .certifications, .research_papers,
   .clubs_and_associations, .hobbies, .profiles]

/-- The loop of load_shared_data over the well-known files of a data
directory, threading the accumulating SharedData. -/
def loadFiles (d : DataDir) : SharedData → List DataFile → Except Err SharedData
  | sh, [] => .ok sh
  | sh, f :: rest =>
    match processFile f.filename f.validator sh (f.state d) with
    | .error er => .error er
    | .ok sh' => loadFiles d sh' rest

/-- loader.py load_shared_data: ConfigError when the directory does not
exist, then the eight well-known files processed in the insertion order of
the data_files dict, starting from an all-empty SharedData. -/
def load_shared_data (d : DataDir) : Except Err SharedData :=
  if d.dirExists then loadFiles d {} fileOrder
  else .error (.config ("Data directory not found: " ++ d.path))

/-- One reference list resolved against one SharedData mapping, in list
order; the first ID without an entry raises KeyError, reported as the
error value. -/
def resolveIds (m : List (String × RecordV)) : List String → Except String (List RecordV)
  | [] => .ok []
  | id :: rest =>
    match lookupR m id with
    | some r =>
      match resolveIds m rest with
      | .error b => .error b
      | .ok rs => .ok (r :: rs)
    | none => .error id

/-- The seven resolution comprehensions of build_resume_context, in source
order; the first KeyError aborts the whole block. -/
def resolveAll (shared : SharedData) (p : Profile) :
    Except String (List RecordV × List RecordV × List RecordV × List RecordV ×
      List RecordV × List RecordV × List RecordV) :=
  match resolveIds shared.experiences p.experiences with
  | .error b => .error b
  | .ok es =>
  match resolveIds shared.projects p.projects with
  | .error b => .error b
  | .ok ps =>
  match resolveIds shared.education p.education with
  | .error b => .error b
  | .ok ed =>
  match resolveIds shared.certifications p.certifications with
  | .error b => .error b
  | .ok cs =>
  match resolveIds shared.research_papers p.research_papers with
  | .error b => .error b
  | .ok rs =>
  match resolveIds shared.clubs_and_associations p.clubs_and_associations with
  | .error b => .error b
  | .ok cl =>
  match resolveIds shared.hobbies p.hobbies with
  | .error b => .error b
  | .ok hs => .ok (es, ps, ed, cs, rs, cl, hs)

/-- pydantic re-validation of a resolved section list as Experience. -/
def asExpList : List RecordV → Except String (List Experience)
  | [] => .ok []
  | .exp e :: rest =>
    match asExpList rest with
    | .error er => .error er
    | .ok es => .ok (e :: es)
  | _ :: _ => .error "experiences: not an Experience instance"

/-- pydantic re-validation of a resolved section list as Project. -/
def asProjList : List RecordV → Except String (List Project)
  | [] => .ok []
  | .proj e :: rest =>
    match asProjList rest with
    | .error er => .error er
    | .ok es => .ok (e :: es)
  | _ :: _ => .error "projects: not a Project instance"

/-- pydantic re-validation of a resolved section list as Education. -/
def asEduList : List RecordV → Except String (List Education)
  | [] => .ok []
  | .edu e :: rest =>
    match asEduList rest with
    | .error er => .error er
    | .ok es => .ok (e :: es)
  | _ :: _ => .error "education: not an Education instance"

/-- pydantic re-validation of a resolved section list as Certification. -/
def asCertList : List RecordV → Except String (List Certification)
  | [] => .ok []
  | .cert e :: rest =>
    match asCertList rest with
    | .error er => .error er
    | .ok es => .ok (e :: es)
  | _ :: _ => .error "certifications: not a Certification instance"

/-- pydantic re-validation of a resolved section list as ResearchPaper. -/
def asPaperList : List RecordV → Except String (List ResearchPaper)
  | [] => .ok []
  | .paper e :: rest =>
    match asPaperList rest with
    | .error er => .error er
    | .ok es => .ok (e :: es)
  | _ :: _ => .error "research_papers: not a ResearchPaper instance"

/-- pydantic re-validation of a resolved section list as ClubActivity. -/
def asClubList : List RecordV → Except String (List ClubActivity)
  | [] => .ok []
  | .club e :: rest =>
    match asClubList rest with
    | .error er => .error er
    | .ok es => .ok (e :: es)
  | _ :: _ => .error "clubs_and_associations: not a ClubActivity instance"

/-- pydantic re-validation of a resolved section list as Hobby. -/
def asHobbyList : List RecordV → Except String (List Hobby)
  | [] => .ok []
  | .hobby e :: rest =>
    match asHobbyList rest with
    | .error er => .error er
    | .ok es => .ok (e :: es)
  | _ :: _ => .error "hobbies: not a Hobby instance"

/-- The skills entry of the context: added only when profile.skills is
truthy, so an absent or empty list leaves the ResumeSections default none. -/
def skillsOf (p : Profile) : Option (List SkillCategory) :=
  match p.skills with
  | some (c :: cs) => some (c :: cs)
  | _ => none

/-- TemplateContext.model_validate applied to the assembled context dict:
each resolved list is re-validated against its declared record type. -/
def sectionsOf (p : Profile)
    (es ps ed cs rs cl hs : List RecordV) : Except String ResumeSections :=
  match asExpList es with
  | .error e => .error e
  | .ok es' =>
  match asProjList ps with
  | .error e => .error e
  | .ok ps' =>
  match asEduList ed with
  | .error e => .error e
  | .ok ed' =>
  match asCertList cs with
  | .error e => .error e
  | .ok cs' =>
  match asPaperList rs with
  | .error e => .error e
  | .ok rs' =>
  match asClubList cl with
  | .error e => .error e
  | .ok cl' =>
  match asHobbyList hs with
  | .error e => .error e
  | .ok hs' => .ok ⟨skillsOf p, es', ps', ed', cs', rs', cl', hs'⟩

/-- loader.py build_resume_context: profile lookup, reference resolution
in source order, then TemplateContext.model_validate on the assembled
context. Attribute access on a stored record that is not a Profile raises
an uncaught AttributeError while the context dict is being built. -/
def build_resume_context (personal_info : PersonalInfo) (profile_name : String)
    (shared : SharedData) : Except Err TemplateContext :=
  match lookupR shared.profiles profile_name with
  | none => .error (.data ("Profile '" ++ profile_name ++ "' not found in shared data"))
  | some (.profile p) =>
    match resolveAll shared p with
    | .error badId =>
      .error (.data ("Missing reference in profile '" ++ profile_name ++ "': '" ++ badId ++ "'"))
    | .ok (es, ps, ed, cs, rs, cl, hs) =>
      match sectionsOf p es ps ed cs rs cl hs with
      | .error e => .error (.data ("Failed to validate template context: " ++ e))
      | .ok secs => .ok ⟨personal_info, p.title, p.summary, secs⟩
  | some _ => .error (.pyError "AttributeError")

/-- One pass of Python str.replace for a single-character pattern, which
substitutes every occurrence of that character. All patterns in the
_latex_escape replacement list are single characters except none, so the
sequential str.replace calls are exactly these per-character passes. -/
def replChar (old : Char) (new : List Char) : List Char → List Char
  | [] => []
  | c :: cs => (if c = old then new else [c]) ++ replChar old new cs

/-- generator.py _latex_escape replacement list, in source order:
backslash first, then the other special characters. -/
def replacements : List (Char × List Char) :=
  [('\\', "\\textbackslash\x7b\x7d".data),
   ('&', "\\&".data),
   ('%', "\\%".data),
   ('$', "\\$".data),
   ('#', "\\#".data),
   ('_', "\\_".data),
   ('\x7b', "\\\x7b".data),
   ('\x7d', "\\\x7d".data),
   ('~', "\\textasciitilde\x7b\x7d".data),
   ('^', "\\^\x7b\x7d".data)]

/-- generator.py _latex_escape on character lists. -/
def latexEscapeL (s : List Char) : List Char :=
  replacements.foldl (fun t p => replChar p.1 p.2 t) s

/-- generator.py _latex_escape: the latex_escape Jinja2 filter. -/
def latex_escape (s : String) : String :=
  ⟨latexEscapeL s.data⟩

/-- The per-character substitution for the characters whose replacement
text introduces no further special characters beyond the leading
backslash. -/
def escSimple (c : Char) : List Char :=
  if c = '&' then "\\&".data
  else if c = '%' then "\\%".data
  else if c = '$' then "\\$".data
  else if c = '#' then "\\#".data
  else if c = '_' then "\\_".data
  else [c]

/-- escSimple mapped over a character list. -/
def escSimpleL : List Char → List Char
  | [] => []
  | c :: cs => escSimple c ++ escSimpleL cs

/-- Decidable equality of Except results, used to evaluate the loaders at
concrete inputs. -/
def exceptDecEq {ε α : Type} [DecidableEq ε] [DecidableEq α] :
    DecidableEq (Except ε α) := fun x y =>
  match x, y with
  | .ok a, .ok b =>
    if h : a = b then .isTrue (by rw [h])
    else .isFalse (by intro hh; cases hh; exact h rfl)
  | .error a, .error b =>
    if h : a = b then .isTrue (by rw [h])
    else .isFalse (by intro hh; cases hh; exact h rfl)
  | .ok _, .error _ => .isFalse (by intro hh; cases hh)
  | .error _, .ok _ => .isFalse (by intro hh; cases hh)

instance {ε α : Type} [DecidableEq ε] [DecidableEq α] : DecidableEq (Except ε α) :=
  exceptDecEq

/-- A present file whose parse result is not a mapping (including the
None produced by an empty file): load_shared_data skips it with a
warning. -/
def nonMapping : FileState → Bool
  | .content (.map _) => false
  | .content _ => true
  | _ => false

/-- Whether a file state carries a top-level key k. -/
def FileState.mentions (st : FileState) (k : String) : Bool :=
  match st with
  | .content (.map m) => m.any (fun p => p.1 = k)
  | _ => false

/-- Whether none of the eight well-known files of a directory carries the
top-level key k. -/
def noFileMentions (d : DataDir) (k : String) : Bool :=
  fileOrder.all (fun f => !((f.state d).mentions k))

/-- The declared field names of SharedData. -/
def sharedKeys : List String :=
  ["experiences", "projects", "education", "certifications",
   "research_papers", "clubs_and_associations", "hobbies", "profiles"]

/-- Variant test of a runtime record. -/
def RecordV.isExp : RecordV → Bool | .exp _ => true | _ => false

/-- Variant test of a runtime record. -/
def RecordV.isProj : RecordV → Bool | .proj _ => true | _ => false

/-- Variant test of a runtime record. -/
def RecordV.isEdu : RecordV → Bool | .edu _ => true | _ => false

/-- Variant test of a runtime record. -/
def RecordV.isCert : RecordV → Bool | .cert _ => true | _ => false

/-- Variant test of a runtime record. -/
def RecordV.isPaper : RecordV → Bool | .paper _ => true | _ => false

/-- Variant test of a runtime record. -/
def RecordV.isClub : RecordV → Bool | .club _ => true | _ => false

/-- Variant test of a runtime record. -/
def RecordV.isHobby : RecordV → Bool | .hobby _ => true | _ => false

/-- Variant test of a runtime record. -/
def RecordV.isProfile : RecordV → Bool | .profile _ => true | _ => false

/-- The filename stem of a well-known file, which is also the name of the
SharedData field it is documented to populate. -/
def DataFile.stem : DataFile → String
  | .experiences => "experiences"
  | .projects => "projects"
  | .education => "education"
  | .certifications => "certifications"
  | .research_papers => "research_papers"
  | .clubs_and_associations => "clubs_and_associations"
  | .hobbies => "hobbies"
  | .profiles => "profiles"

/-- The variant a record validated through a given file's model class
carries. -/
def DataFile.variantCheck : DataFile → RecordV → Bool
  | .experiences => RecordV.isExp
  | .projects => RecordV.isProj
  | .education => RecordV.isEdu
  | .certifications => RecordV.isCert
  | .research_papers => RecordV.isPaper
  | .clubs_and_associations => RecordV.isClub
  | .hobbies => RecordV.isHobby
  | .profiles => RecordV.isProfile

/-- SharedData whose seven record mappings hold records of the declared
model class, as the pydantic field annotations of models.py state. -/
def wellTypedShared (sh : SharedData) : Bool :=
  sh.experiences.all (fun pr => pr.2.isExp) &&
  sh.projects.all (fun pr => pr.2.isProj) &&
  sh.education.all (fun pr => pr.2.isEdu) &&
  sh.certifications.all (fun pr => pr.2.isCert) &&
  sh.research_papers.all (fun pr => pr.2.isPaper) &&
  sh.clubs_and_associations.all (fun pr => pr.2.isClub) &&
  sh.hobbies.all (fun pr => pr.2.isHobby)

/-- Serialization of an optional string field: explicit YAML null when
the field is absent. -/
def optY : Option String → Yaml
  | none => .null
  | some s => .str s

/-- Modelled from the spec: YAML serialization of PersonalInfo in valid
schema form (the repository has no serializer; data files are written by
hand in the documented shape). -/
def PersonalInfo.toYaml (x : PersonalInfo) : Yaml :=
  .map [("name", .str x.name), ("phone", optY x.phone), ("email", optY x.email),
        ("linkedin", optY x.linkedin), ("github", optY x.github),
        ("blog", optY x.blog), ("projects_page", optY x.projects_page),
        ("pypi", optY x.pypi), ("passport_dev", optY x.passport_dev),
        ("location", optY x.location)]

/-- URL-typed fields of the record hold valid URLs when present. -/
def PersonalInfo.valid (x : PersonalInfo) : Bool :=
  x.linkedin.all isValidUrl && x.github.all isValidUrl && x.blog.all isValidUrl &&
  x.projects_page.all isValidUrl && x.pypi.all isValidUrl &&
  x.passport_dev.all isValidUrl

/-- Modelled from the spec: YAML serialization of SkillCategory in valid
schema form. -/
def SkillCategory.toYaml (x : SkillCategory) : Yaml :=
  .map [("category", .str x.category), ("items", .list (x.items.map .str))]

/-- Modelled from the spec: YAML serialization of Experience in valid
schema form. -/
def Experience.toYaml (x : Experience) : Yaml :=
  .map [("title", .str x.title), ("company", .str x.company),
        ("date", .str x.date), ("location", .str x.location),
        ("bullet_points", .list (x.bullet_points.map .str)),
        ("link", optY x.link)]

/-- URL-typed fields of the record hold valid URLs when present. -/
def Experience.valid (x : Experience) : Bool :=
  x.link.all isValidUrl

/-- Modelled from the spec: YAML serialization of Project in valid schema
form. -/
def Project.toYaml (x : Project) : Yaml :=
  .map [("name", .str x.name), ("link", optY x.link),
        ("description", .str x.description)]

/-- URL-typed fields of the record hold valid URLs when present. -/
def Project.valid (x : Project) : Bool :=
  x.link.all isValidUrl

/-- Modelled from the spec: YAML serialization of Education in valid
schema form. -/
def Education.toYaml (x : Education) : Yaml :=
  .map [("institution", .str x.institution), ("location", .str x.location),
        ("degree", .str x.degree), ("notes", optY x.notes)]

/-- Modelled from the spec: YAML serialization of Certification in valid
schema form. -/
def Certification.toYaml (x : Certification) : Yaml :=
  .map [("name", .str x.name), ("issuer", .str x.issuer),
        ("credential_link", .str x.credential_link)]

/-- URL-typed fields of the record hold valid URLs. -/
def Certification.valid (x : Certification) : Bool :=
  isValidUrl x.credential_link

/-- Modelled from the spec: YAML serialization of ResearchPaper in valid
schema form. -/
def ResearchPaper.toYaml (x : ResearchPaper) : Yaml :=
  .map [("title", .str x.title), ("authors", .str x.authors),
        ("status", .str x.status.toStr), ("link", optY x.link)]

/-- URL-typed fields of the record hold valid URLs when present. -/
def ResearchPaper.valid (x : ResearchPaper) : Bool :=
  x.link.all isValidUrl

/-- Modelled from the spec: YAML serialization of ClubActivity in valid
schema form. -/
def ClubActivity.toYaml (x : ClubActivity) : Yaml :=
  .map [("name", .str x.name), ("role", .str x.role), ("date", .str x.date),
        ("description", optY x.description), ("link", optY x.link)]

/-- URL-typed fields of the record hold valid URLs when present. -/
def ClubActivity.valid (x : ClubActivity) : Bool :=
  x.link.all isValidUrl

/-- Modelled from the spec: YAML serialization of Hobby in valid schema
form. -/
def Hobby.toYaml (x : Hobby) : Yaml :=
  .map [("name", .str x.name), ("link", optY x.link)]

/-- URL-typed fields of the record hold valid URLs when present. -/
def Hobby.valid (x : Hobby) : Bool :=
  x.link.all isValidUrl

/-- Serialization of the optional skills field of a Profile. -/
def skillsY : Option (List SkillCategory) → Yaml
  | none => .null
  | some l => .list (l.map SkillCategory.toYaml)

/-- Modelled from the spec: YAML serialization of Profile in valid schema
form. -/
def Profile.toYaml (x : Profile) : Yaml :=
  .map [("title", .str x.title), ("summary", .str x.summary),
        ("skills", skillsY x.skills),
        ("experiences", .list (x.experiences.map .str)),
        ("projects", .list (x.projects.map .str)),
        ("education", .list (x.education.map .str)),
        ("certifications", .list (x.certifications.map .str)),
        ("research_papers", .list (x.research_papers.map .str)),
        ("clubs_and_associations", .list (x.clubs_and_associations.map .str)),
        ("hobbies", .list (x.hobbies.map .str))]

/-- A data directory whose experiences.yml is present but empty
(yaml.safe_load of an empty file gives None). -/
def dEmptyExp : DataDir :=
  { experiences_yml := .content .null }

/-- A data directory without experiences.yml whose projects.yml carries
the top-level key experiences over one well-formed Project item. -/
def dCross : DataDir :=
  { projects_yml := .content (.map [("experiences",
      .map [("E1", .map [("name", .str "P"), ("description", .str "D")])])]) }

/-- A data directory whose personal_info.yml parses to the YAML scalar
string personal_info. -/
def dScalarPI : DataDir :=
  { personal_info_yml := .content (.str "personal_info") }

/-- Whether an Except value is an error. -/
def exceptErrored {ε α : Type} : Except ε α → Bool
  | .error _ => true
  | .ok _ => false

/-- A minimal PersonalInfo value. -/
def piTest : PersonalInfo :=
  ⟨"Test", none, none, none, none, none, none, none, none, none⟩

/-- A concrete experience record. -/
def expA : Experience := ⟨"tA", "cA", "dA", "", [], none⟩

/-- A concrete experience record. -/
def expB : Experience := ⟨"tB", "cB", "dB", "", [], none⟩

/-- A profile listing experiences B then A. -/
def profBA : Profile := ⟨"ti", "su", none, ["B", "A"], [], [], [], [], [], []⟩

/-- SharedData whose experiences mapping was inserted in the order A, B
and whose profiles mapping holds profBA. -/
def shOrder : SharedData :=
  { experiences := [("A", .exp expA), ("B", .exp expB)],
    profiles := [("T", .profile profBA)] }

theorem replChar_append (old : Char) (new a b : List Char) :
    replChar old new (a ++ b) = replChar old new a ++ replChar old new b := by
  induction a with
  | nil => rfl
  | cons c cs ih => simp [replChar, ih]

theorem latexEscapeL_append (a b : List Char) :
    latexEscapeL (a ++ b) = latexEscapeL a ++ latexEscapeL b := by
  simp [latexEscapeL, replacements, List.foldl, replChar_append]

theorem latexEscapeL_single (c : Char) (h1 : ¬(c = '\\')) (h2 : ¬(c = '\x7b'))
    (h3 : ¬(c = '\x7d')) (h4 : ¬(c = '~')) (h5 : ¬(c = '^')) :
    latexEscapeL [c] = escSimple c := by
  by_cases hA : c = '&'
  · subst hA; decide
  by_cases hB : c = '%'
  · subst hB; decide
  by_cases hC : c = '$'
  · subst hC; decide
  by_cases hD : c = '#'
  · subst hD; decide
  by_cases hE : c = '_'
  · subst hE; decide
  simp [latexEscapeL, replacements, List.foldl, replChar, escSimple,
    h1, h2, h3, h4, h5, hA, hB, hC, hD, hE]

/-- C4: the escape filter applies its substitutions per character in the
fixed source order with backslash first, so that the backslashes inserted
by later substitutions are never re-escaped: on any string free of the
characters whose replacement text itself contains further special
characters, the whole pass equals the single per-character substitution
escSimple, and in particular escaping the string 100% & $5_a yields the
literal sequence 100\% \& \$5\_a. -/
theorem c4_escape_per_char_ordered :
    (∀ s : List Char,
      (∀ c ∈ s, ¬(c = '\\') ∧ ¬(c = '\x7b') ∧ ¬(c = '\x7d') ∧ ¬(c = '~') ∧ ¬(c = '^')) →
      latexEscapeL s = escSimpleL s) ∧
    latex_escape "100% & $5_a" = "100\\% \\& \\$5\\_a" := by
  constructor
  · intro s hs
    induction s with
    | nil => rfl
    | cons c cs ih =>
      have hc := hs c (by simp)
      have step : latexEscapeL (c :: cs) = latexEscapeL [c] ++ latexEscapeL cs := by
        have hdec : c :: cs = [c] ++ cs := rfl
        rw [hdec, latexEscapeL_append]
      rw [step, latexEscapeL_single c hc.1 hc.2.1 hc.2.2.1 hc.2.2.2.1 hc.2.2.2.2,
        ih (fun x hx => hs x (by simp [hx]))]
      rfl
  · decide

/-- Witness for C4 at the concrete example string. -/
theorem c4_witness :
    latexEscapeL "100% & $5_a".data = escSimpleL "100% & $5_a".data :=
  c4_escape_per_char_ordered.1 "100% & $5_a".data (by decide)

/-- C10 counterexample: escaping a tilde does not yield
backslash-textasciitilde with re-escaped braces; the tilde substitution
runs after the brace substitutions, so its inserted braces stay bare. -/
theorem c10_counterexample :
    ¬(latex_escape "~" = "\\textasciitilde\\\x7b\\\x7d") := by decide

/-- C10 amended: the braces inserted by the backslash replacement text are
re-escaped by the later brace substitutions, so escaping a backslash
yields backslash-textbackslash with escaped braces; but the tilde and
caret substitutions run after the brace substitutions, so their inserted
braces are not re-escaped. -/
theorem c10_amended_inserted_braces :
    latex_escape "\\" = "\\textbackslash\\\x7b\\\x7d" ∧
    latex_escape "~" = "\\textasciitilde\x7b\x7d" ∧
    latex_escape "^" = "\\^\x7b\x7d" := by decide

/-- C7: for every profile_name not present as a key of the SharedData
profiles mapping, build_resume_context raises a data error whose message
cites that profile name. -/
theorem c7_missing_profile (personal_info : PersonalInfo) (profile_name : String)
    (shared : SharedData) (h : lookupR shared.profiles profile_name = none) :
    build_resume_context personal_info profile_name shared =
      .error (.data ("Profile '" ++ profile_name ++ "' not found in shared data")) := by
  simp [build_resume_context, h]

/-- Witness for C7 at a concrete empty SharedData. -/
theorem c7_witness :
    build_resume_context
      (⟨"Test", none, none, none, none, none, none, none, none, none⟩ : PersonalInfo)
      "MISSING" {} =
      .error (.data ("Profile '" ++ "MISSING" ++ "' not found in shared data")) :=
  c7_missing_profile _ "MISSING" {} (by decide)

/-- C5: at the failing input, a personal_info.yml parsing to the YAML
scalar string personal_info, the file parses as YAML and has no top-level
personal_info key, yet load_personal_info raises an uncaught TypeError
from indexing the string, not the DataError its docstring and the spec
describe. -/
theorem c5_failing_eval :
    load_personal_info dScalarPI =
      .error (.pyError "TypeError: string indices must be integers") := by decide

/-- C1 counterexample: a data directory whose experiences.yml is present
but empty makes load_shared_data return an empty SharedData successfully,
instead of raising the data error the claim requires. -/
theorem c1_counterexample :
    load_shared_data dEmptyExp = .ok ({} : SharedData) := by decide

/-- C6 counterexample: a data directory in which experiences.yml is
absent but projects.yml carries the top-level key experiences yields a
SharedData whose experiences mapping is not empty. -/
theorem c6_counterexample :
    load_shared_data dCross =
      .ok { experiences := [("E1", RecordV.proj ⟨"P", none, "D"⟩)] } ∧
    ¬([("E1", RecordV.proj (⟨"P", none, "D"⟩ : Project))] =
      ([] : List (String × RecordV))) := by decide

theorem lookupR_mem {α : Type} (m : List (String × α)) (k : String) (v : α)
    (h : lookupR m k = some v) : (k, v) ∈ m := by
  induction m with
  | nil => simp [lookupR] at h
  | cons p rest ih =>
    obtain ⟨k', v'⟩ := p
    by_cases hk : k' = k
    · subst hk
      simp [lookupR] at h
      simp [h]
    · simp [lookupR, hk] at h
      exact List.mem_cons_of_mem _ (ih h)

theorem resolveIds_error (m : List (String × RecordV)) (ids : List String)
    (b : String) (h : resolveIds m ids = .error b) :
    b ∈ ids ∧ lookupR m b = none := by
  induction ids with
  | nil => simp [resolveIds] at h
  | cons id rest ih =>
    rw [resolveIds] at h
    cases hl : lookupR m id with
    | some r =>
      rw [hl] at h
      cases hr : resolveIds m rest with
      | error b0 =>
        rw [hr] at h
        cases h
        have := ih hr
        exact ⟨List.mem_cons_of_mem _ this.1, this.2⟩
      | ok rs => rw [hr] at h; cases h
    | none =>
      rw [hl] at h
      cases h
      exact ⟨List.mem_cons_self _ _, hl⟩

theorem resolveIds_ok_present (m : List (String × RecordV)) (ids : List String)
    (rs : List RecordV) (h : resolveIds m ids = .ok rs) :
    ∀ id ∈ ids, ¬(lookupR m id = none) := by
  induction ids generalizing rs with
  | nil => intro id hid; simp at hid
  | cons id0 rest ih =>
    intro id hid
    rw [resolveIds] at h
    cases hl : lookupR m id0 with
    | some r =>
      rw [hl] at h
      cases hr : resolveIds m rest with
      | error b0 => rw [hr] at h; cases h
      | ok rs0 =>
        rcases List.mem_cons.mp hid with rfl | hmem
        · simp [hl]
        · exact ih rs0 hr id hmem
    | none => rw [hl] at h; cases h

theorem resolveIds_all_present (m : List (String × RecordV)) (ids : List String)
    (h : ∀ id ∈ ids, (lookupR m id).isSome = true) :
    ∃ rs, resolveIds m ids = .ok rs := by
  induction ids with
  | nil => exact ⟨[], rfl⟩
  | cons id rest ih =>
    have h0 := h id (List.mem_cons_self _ _)
    cases hl : lookupR m id with
    | none => rw [hl] at h0; simp at h0
    | some r =>
      obtain ⟨rs, hrs⟩ := ih (fun x hx => h x (List.mem_cons_of_mem _ hx))
      exact ⟨r :: rs, by rw [resolveIds, hl, hrs]⟩

theorem resolveIds_ok_map (m : List (String × RecordV)) (ids : List String)
    (rs : List RecordV) (h : resolveIds m ids = .ok rs) :
    ids.map (fun id => lookupR m id) = rs.map some := by
  induction ids generalizing rs with
  | nil => cases h; rfl
  | cons id rest ih =>
    rw [resolveIds] at h
    cases hl : lookupR m id with
    | none => rw [hl] at h; cases h
    | some r =>
      rw [hl] at h
      cases hr : resolveIds m rest with
      | error b0 => rw [hr] at h; cases h
      | ok rs0 =>
        rw [hr] at h
        cases h
        simp [hl, ih rs0 hr]

theorem resolveIds_ok_mem (m : List (String × RecordV)) (ids : List String)
    (rs : List RecordV) (h : resolveIds m ids = .ok rs) :
    ∀ r ∈ rs, ∃ id, lookupR m id = some r := by
  induction ids generalizing rs with
  | nil => cases h; intro r hr; simp at hr
  | cons id rest ih =>
    rw [resolveIds] at h
    cases hl : lookupR m id with
    | none => rw [hl] at h; cases h
    | some r0 =>
      rw [hl] at h
      cases hr : resolveIds m rest with
      | error b0 => rw [hr] at h; cases h
      | ok rs0 =>
        rw [hr] at h
        cases h
        intro r hrm
        rcases List.mem_cons.mp hrm with rfl | hmem
        · exact ⟨id, hl⟩
        · exact ih rs0 hr r hmem

/-- C2: for every profile whose seven reference-list fields contain at
least one ID absent from the corresponding SharedData mapping,
build_resume_context raises a data error whose message names the profile
and a missing reference, and no TemplateContext is returned. -/
theorem c2_missing_reference (personal_info : PersonalInfo) (profile_name : String)
    (shared : SharedData) (p : Profile)
    (hp : lookupR shared.profiles profile_name = some (.profile p))
    (hmiss : (∃ id ∈ p.experiences, lookupR shared.experiences id = none) ∨
             (∃ id ∈ p.projects, lookupR shared.projects id = none) ∨
             (∃ id ∈ p.education, lookupR shared.education id = none) ∨
             (∃ id ∈ p.certifications, lookupR shared.certifications id = none) ∨
             (∃ id ∈ p.research_papers, lookupR shared.research_papers id = none) ∨
             (∃ id ∈ p.clubs_and_associations, lookupR shared.clubs_and_associations id = none) ∨
             (∃ id ∈ p.hobbies, lookupR shared.hobbies id = none)) :
    ∃ badId, build_resume_context personal_info profile_name shared =
        .error (.data ("Missing reference in profile '" ++ profile_name ++ "': '" ++ badId ++ "'")) ∧
      ((badId ∈ p.experiences ∧ lookupR shared.experiences badId = none) ∨
       (badId ∈ p.projects ∧ lookupR shared.projects badId = none) ∨
       (badId ∈ p.education ∧ lookupR shared.education badId = none) ∨
       (badId ∈ p.certifications ∧ lookupR shared.certifications badId = none) ∨
       (badId ∈ p.research_papers ∧ lookupR shared.research_papers badId = none) ∨
       (badId ∈ p.clubs_and_associations ∧ lookupR shared.clubs_and_associations badId = none) ∨
       (badId ∈ p.hobbies ∧ lookupR shared.hobbies badId = none)) := by
  have herr : ∃ b, resolveAll shared p = .error b := by
    unfold resolveAll
    cases h1 : resolveIds shared.experiences p.experiences with
    | error b => exact ⟨b, rfl⟩
    | ok l1 =>
    cases h2 : resolveIds shared.projects p.projects with
    | error b => exact ⟨b, rfl⟩
    | ok l2 =>
    cases h3 : resolveIds shared.education p.education with
    | error b => exact ⟨b, rfl⟩
    | ok l3 =>
    cases h4 : resolveIds shared.certifications p.certifications with
    | error b => exact ⟨b, rfl⟩
    | ok l4 =>
    cases h5 : resolveIds shared.research_papers p.research_papers with
    | error b => exact ⟨b, rfl⟩
    | ok l5 =>
    cases h6 : resolveIds shared.clubs_and_associations p.clubs_and_associations with
    | error b => exact ⟨b, rfl⟩
    | ok l6 =>
    cases h7 : resolveIds shared.hobbies p.hobbies with
    | error b => exact ⟨b, rfl⟩
    | ok l7 =>
      exfalso
      rcases hmiss with ⟨id, hid, hn⟩ | ⟨id, hid, hn⟩ | ⟨id, hid, hn⟩ | ⟨id, hid, hn⟩ |
        ⟨id, hid, hn⟩ | ⟨id, hid, hn⟩ | ⟨id, hid, hn⟩
      · exact resolveIds_ok_present _ _ _ h1 id hid hn
      · exact resolveIds_ok_present _ _ _ h2 id hid hn
      · exact resolveIds_ok_present _ _ _ h3 id hid hn
      · exact resolveIds_ok_present _ _ _ h4 id hid hn
      · exact resolveIds_ok_present _ _ _ h5 id hid hn
      · exact resolveIds_ok_present _ _ _ h6 id hid hn
      · exact resolveIds_ok_present _ _ _ h7 id hid hn
  obtain ⟨b, hb⟩ := herr
  have hchar : (b ∈ p.experiences ∧ lookupR shared.experiences b = none) ∨
       (b ∈ p.projects ∧ lookupR shared.projects b = none) ∨
       (b ∈ p.education ∧ lookupR shared.education b = none) ∨
       (b ∈ p.certifications ∧ lookupR shared.certifications b = none) ∨
       (b ∈ p.research_papers ∧ lookupR shared.research_papers b = none) ∨
       (b ∈ p.clubs_and_associations ∧ lookupR shared.clubs_and_associations b = none) ∨
       (b ∈ p.hobbies ∧ lookupR shared.hobbies b = none) := by
    unfold resolveAll at hb
    cases h1 : resolveIds shared.experiences p.experiences with
    | error b0 =>
      rw [h1] at hb; cases hb
      exact Or.inl (resolveIds_error _ _ _ h1)
    | ok l1 =>
    rw [h1] at hb
    cases h2 : resolveIds shared.projects p.projects with
    | error b0 =>
      rw [h2] at hb; cases hb
      exact Or.inr (Or.inl (resolveIds_error _ _ _ h2))
    | ok l2 =>
    rw [h2] at hb
    cases h3 : resolveIds shared.education p.education with
    | error b0 =>
      rw [h3] at hb; cases hb
      exact Or.inr (Or.inr (Or.inl (resolveIds_error _ _ _ h3)))
    | ok l3 =>
    rw [h3] at hb
    cases h4 : resolveIds shared.certifications p.certifications with
    | error b0 =>
      rw [h4] at hb; cases hb
      exact Or.inr (Or.inr (Or.inr (Or.inl (resolveIds_error _ _ _ h4))))
    | ok l4 =>
    rw [h4] at hb
    cases h5 : resolveIds shared.research_papers p.research_papers with
    | error b0 =>
      rw [h5] at hb; cases hb
      exact Or.inr (Or.inr (Or.inr (Or.inr (Or.inl (resolveIds_error _ _ _ h5)))))
    | ok l5 =>
    rw [h5] at hb
    cases h6 : resolveIds shared.clubs_and_associations p.clubs_and_associations with
    | error b0 =>
      rw [h6] at hb; cases hb
      exact Or.inr (Or.inr (Or.inr (Or.inr (Or.inr (Or.inl (resolveIds_error _ _ _ h6))))))
    | ok l6 =>
    rw [h6] at hb
    cases h7 : resolveIds shared.hobbies p.hobbies with
    | error b0 =>
      rw [h7] at hb; cases hb
      exact Or.inr (Or.inr (Or.inr (Or.inr (Or.inr (Or.inr (resolveIds_error _ _ _ h7))))))
    | ok l7 => rw [h7] at hb; cases hb
  exact ⟨b, by simp [build_resume_context, hp, hb], hchar⟩

/-- Witness for C2: a profile referencing one missing experience ID. -/
theorem c2_witness :
    ∃ badId, build_resume_context
        (⟨"Test", none, none, none, none, none, none, none, none, none⟩ : PersonalInfo)
        "T"
        { profiles := [("T", .profile
            ⟨"ti", "su", none, ["MISSING_EXP"], [], [], [], [], [], []⟩)] } =
        .error (.data ("Missing reference in profile '" ++ "T" ++ "': '" ++ badId ++ "'")) ∧
      ((badId ∈ ["MISSING_EXP"] ∧
        lookupR ({ profiles := [("T", .profile
            ⟨"ti", "su", none, ["MISSING_EXP"], [], [], [], [], [], []⟩)] } : SharedData).experiences badId = none) ∨
       (badId ∈ ([] : List String) ∧ False) ∨
       (badId ∈ ([] : List String) ∧ False) ∨
       (badId ∈ ([] : List String) ∧ False) ∨
       (badId ∈ ([] : List String) ∧ False) ∨
       (badId ∈ ([] : List String) ∧ False) ∨
       (badId ∈ ([] : List String) ∧ False)) := by
  obtain ⟨b, h1, h2⟩ := c2_missing_reference
    (⟨"Test", none, none, none, none, none, none, none, none, none⟩ : PersonalInfo)
    "T"
    { profiles := [("T", .profile
        ⟨"ti", "su", none, ["MISSING_EXP"], [], [], [], [], [], []⟩)] }
    ⟨"ti", "su", none, ["MISSING_EXP"], [], [], [], [], [], []⟩
    (by decide)
    (Or.inl ⟨"MISSING_EXP", by decide, by decide⟩)
  refine ⟨b, h1, ?_⟩
  rcases h2 with h | h | h | h | h | h | h
  · exact Or.inl h
  all_goals simp at h

theorem asExpList_ok (rs : List RecordV) (h : ∀ r ∈ rs, r.isExp = true) :
    ∃ es, asExpList rs = .ok es ∧ rs = es.map RecordV.exp := by
  induction rs with
  | nil => exact ⟨[], rfl, rfl⟩
  | cons r rest ih =>
    have hr := h r (List.mem_cons_self _ _)
    obtain ⟨es, h1, h2⟩ := ih (fun x hx => h x (List.mem_cons_of_mem _ hx))
    cases r <;> simp [RecordV.isExp] at hr
    rename_i x
    exact ⟨x :: es, by simp [asExpList, h1], by simp [h2]⟩

theorem asProjList_ok (rs : List RecordV) (h : ∀ r ∈ rs, r.isProj = true) :
    ∃ es, asProjList rs = .ok es ∧ rs = es.map RecordV.proj := by
  induction rs with
  | nil => exact ⟨[], rfl, rfl⟩
  | cons r rest ih =>
    have hr := h r (List.mem_cons_self _ _)
    obtain ⟨es, h1, h2⟩ := ih (fun x hx => h x (List.mem_cons_of_mem _ hx))
    cases r <;> simp [RecordV.isProj] at hr
    rename_i x
    exact ⟨x :: es, by simp [asProjList, h1], by simp [h2]⟩

theorem asEduList_ok (rs : List RecordV) (h : ∀ r ∈ rs, r.isEdu = true) :
    ∃ es, asEduList rs = .ok es ∧ rs = es.map RecordV.edu := by
  induction rs with
  | nil => exact ⟨[], rfl, rfl⟩
  | cons r rest ih =>
    have hr := h r (List.mem_cons_self _ _)
    obtain ⟨es, h1, h2⟩ := ih (fun x hx => h x (List.mem_cons_of_mem _ hx))
    cases r <;> simp [RecordV.isEdu] at hr
    rename_i x
    exact ⟨x :: es, by simp [asEduList, h1], by simp [h2]⟩

theorem asCertList_ok (rs : List RecordV) (h : ∀ r ∈ rs, r.isCert = true) :
    ∃ es, asCertList rs = .ok es ∧ rs = es.map RecordV.cert := by
  induction rs with
  | nil => exact ⟨[], rfl, rfl⟩
  | cons r rest ih =>
    have hr := h r (List.mem_cons_self _ _)
    obtain ⟨es, h1, h2⟩ := ih (fun x hx => h x (List.mem_cons_of_mem _ hx))
    cases r <;> simp [RecordV.isCert] at hr
    rename_i x
    exact ⟨x :: es, by simp [asCertList, h1], by simp [h2]⟩

theorem asPaperList_ok (rs : List RecordV) (h : ∀ r ∈ rs, r.isPaper = true) :
    ∃ es, asPaperList rs = .ok es ∧ rs = es.map RecordV.paper := by
  induction rs with
  | nil => exact ⟨[], rfl, rfl⟩
  | cons r rest ih =>
    have hr := h r (List.mem_cons_self _ _)
    obtain ⟨es, h1, h2⟩ := ih (fun x hx => h x (List.mem_cons_of_mem _ hx))
    cases r <;> simp [RecordV.isPaper] at hr
    rename_i x
    exact ⟨x :: es, by simp [asPaperList, h1], by simp [h2]⟩

theorem asClubList_ok (rs : List RecordV) (h : ∀ r ∈ rs, r.isClub = true) :
    ∃ es, asClubList rs = .ok es ∧ rs = es.map RecordV.club := by
  induction rs with
  | nil => exact ⟨[], rfl, rfl⟩
  | cons r rest ih =>
    have hr := h r (List.mem_cons_self _ _)
    obtain ⟨es, h1, h2⟩ := ih (fun x hx => h x (List.mem_cons_of_mem _ hx))
    cases r <;> simp [RecordV.isClub] at hr
    rename_i x
    exact ⟨x :: es, by simp [asClubList, h1], by simp [h2]⟩

theorem asHobbyList_ok (rs : List RecordV) (h : ∀ r ∈ rs, r.isHobby = true) :
    ∃ es, asHobbyList rs = .ok es ∧ rs = es.map RecordV.hobby := by
  induction rs with
  | nil => exact ⟨[], rfl, rfl⟩
  | cons r rest ih =>
    have hr := h r (List.mem_cons_self _ _)
    obtain ⟨es, h1, h2⟩ := ih (fun x hx => h x (List.mem_cons_of_mem _ hx))
    cases r <;> simp [RecordV.isHobby] at hr
    rename_i x
    exact ⟨x :: es, by simp [asHobbyList, h1], by simp [h2]⟩

/-- C3: for every profile whose reference lists contain only IDs present
in the corresponding well-typed SharedData mappings, build_resume_context
returns a TemplateContext in which each of the seven resolved section
lists carries exactly the records of the profile's ID list, in the order
of that ID list, regardless of insertion order in the SharedData
mappings. -/
theorem c3_resolution_preserves_order (personal_info : PersonalInfo)
    (profile_name : String) (shared : SharedData) (p : Profile)
    (hp : lookupR shared.profiles profile_name = some (.profile p))
    (hwt : wellTypedShared shared = true)
    (hpresent :
      (∀ id ∈ p.experiences, (lookupR shared.experiences id).isSome = true) ∧
      (∀ id ∈ p.projects, (lookupR shared.projects id).isSome = true) ∧
      (∀ id ∈ p.education, (lookupR shared.education id).isSome = true) ∧
      (∀ id ∈ p.certifications, (lookupR shared.certifications id).isSome = true) ∧
      (∀ id ∈ p.research_papers, (lookupR shared.research_papers id).isSome = true) ∧
      (∀ id ∈ p.clubs_and_associations, (lookupR shared.clubs_and_associations id).isSome = true) ∧
      (∀ id ∈ p.hobbies, (lookupR shared.hobbies id).isSome = true)) :
    ∃ tc, build_resume_context personal_info profile_name shared = .ok tc ∧
      p.experiences.map (fun id => lookupR shared.experiences id) =
        tc.sections.experiences.map (fun e => some (RecordV.exp e)) ∧
      p.projects.map (fun id => lookupR shared.projects id) =
        tc.sections.projects.map (fun e => some (RecordV.proj e)) ∧
      p.education.map (fun id => lookupR shared.education id) =
        tc.sections.education.map (fun e => some (RecordV.edu e)) ∧
      p.certifications.map (fun id => lookupR shared.certifications id) =
        tc.sections.certifications.map (fun e => some (RecordV.cert e)) ∧
      p.research_papers.map (fun id => lookupR shared.research_papers id) =
        tc.sections.research_papers.map (fun e => some (RecordV.paper e)) ∧
      p.clubs_and_associations.map (fun id => lookupR shared.clubs_and_associations id) =
        tc.sections.clubs_and_associations.map (fun e => some (RecordV.club e)) ∧
      p.hobbies.map (fun id => lookupR shared.hobbies id) =
        tc.sections.hobbies.map (fun e => some (RecordV.hobby e)) := by
  obtain ⟨hq1, hq2, hq3, hq4, hq5, hq6, hq7⟩ := hpresent
  obtain ⟨l1, h1⟩ := resolveIds_all_present _ _ hq1
  obtain ⟨l2, h2⟩ := resolveIds_all_present _ _ hq2
  obtain ⟨l3, h3⟩ := resolveIds_all_present _ _ hq3
  obtain ⟨l4, h4⟩ := resolveIds_all_present _ _ hq4
  obtain ⟨l5, h5⟩ := resolveIds_all_present _ _ hq5
  obtain ⟨l6, h6⟩ := resolveIds_all_present _ _ hq6
  obtain ⟨l7, h7⟩ := resolveIds_all_present _ _ hq7
  simp only [wellTypedShared, Bool.and_eq_true, List.all_eq_true] at hwt
  obtain ⟨⟨⟨⟨⟨⟨hw1, hw2⟩, hw3⟩, hw4⟩, hw5⟩, hw6⟩, hw7⟩ := hwt
  obtain ⟨es, he1, he2⟩ := asExpList_ok l1 (fun r hr => by
    obtain ⟨id, hid⟩ := resolveIds_ok_mem _ _ _ h1 r hr
    exact hw1 _ (lookupR_mem _ _ _ hid))
  obtain ⟨ps, hp1, hp2⟩ := asProjList_ok l2 (fun r hr => by
    obtain ⟨id, hid⟩ := resolveIds_ok_mem _ _ _ h2 r hr
    exact hw2 _ (lookupR_mem _ _ _ hid))
  obtain ⟨ed, hd1, hd2⟩ := asEduList_ok l3 (fun r hr => by
    obtain ⟨id, hid⟩ := resolveIds_ok_mem _ _ _ h3 r hr
    exact hw3 _ (lookupR_mem _ _ _ hid))
  obtain ⟨cs, hc1, hc2⟩ := asCertList_ok l4 (fun r hr => by
    obtain ⟨id, hid⟩ := resolveIds_ok_mem _ _ _ h4 r hr
    exact hw4 _ (lookupR_mem _ _ _ hid))
  obtain ⟨rp, hr1, hr2⟩ := asPaperList_ok l5 (fun r hr => by
    obtain ⟨id, hid⟩ := resolveIds_ok_mem _ _ _ h5 r hr
    exact hw5 _ (lookupR_mem _ _ _ hid))
  obtain ⟨cl, hl1, hl2⟩ := asClubList_ok l6 (fun r hr => by
    obtain ⟨id, hid⟩ := resolveIds_ok_mem _ _ _ h6 r hr
    exact hw6 _ (lookupR_mem _ _ _ hid))
  obtain ⟨hb, hh1, hh2⟩ := asHobbyList_ok l7 (fun r hr => by
    obtain ⟨id, hid⟩ := resolveIds_ok_mem _ _ _ h7 r hr
    exact hw7 _ (lookupR_mem _ _ _ hid))
  have hall : resolveAll shared p = .ok (l1, l2, l3, l4, l5, l6, l7) := by
    unfold resolveAll
    rw [h1, h2, h3, h4, h5, h6, h7]
  have hsec : sectionsOf p l1 l2 l3 l4 l5 l6 l7 =
      .ok ⟨skillsOf p, es, ps, ed, cs, rp, cl, hb⟩ := by
    unfold sectionsOf
    rw [he1, hp1, hd1, hc1, hr1, hl1, hh1]
  refine ⟨⟨personal_info, p.title, p.summary, ⟨skillsOf p, es, ps, ed, cs, rp, cl, hb⟩⟩,
    ?_, ?_, ?_, ?_, ?_, ?_, ?_, ?_⟩
  · simp [build_resume_context, hp, hall, hsec]
  · rw [resolveIds_ok_map _ _ _ h1, he2, List.map_map]; rfl
  · rw [resolveIds_ok_map _ _ _ h2, hp2, List.map_map]; rfl
  · rw [resolveIds_ok_map _ _ _ h3, hd2, List.map_map]; rfl
  · rw [resolveIds_ok_map _ _ _ h4, hc2, List.map_map]; rfl
  · rw [resolveIds_ok_map _ _ _ h5, hr2, List.map_map]; rfl
  · rw [resolveIds_ok_map _ _ _ h6, hl2, List.map_map]; rfl
  · rw [resolveIds_ok_map _ _ _ h7, hh2, List.map_map]; rfl

/-- Witness for C3: the profile listing experiences B then A against a
shared mapping inserted in the order A, B. -/
theorem c3_witness :
    ∃ tc, build_resume_context piTest "T" shOrder = .ok tc ∧
      profBA.experiences.map (fun id => lookupR shOrder.experiences id) =
        tc.sections.experiences.map (fun e => some (RecordV.exp e)) ∧
      profBA.projects.map (fun id => lookupR shOrder.projects id) =
        tc.sections.projects.map (fun e => some (RecordV.proj e)) ∧
      profBA.education.map (fun id => lookupR shOrder.education id) =
        tc.sections.education.map (fun e => some (RecordV.edu e)) ∧
      profBA.certifications.map (fun id => lookupR shOrder.certifications id) =
        tc.sections.certifications.map (fun e => some (RecordV.cert e)) ∧
      profBA.research_papers.map (fun id => lookupR shOrder.research_papers id) =
        tc.sections.research_papers.map (fun e => some (RecordV.paper e)) ∧
      profBA.clubs_and_associations.map (fun id => lookupR shOrder.clubs_and_associations id) =
        tc.sections.clubs_and_associations.map (fun e => some (RecordV.club e)) ∧
      profBA.hobbies.map (fun id => lookupR shOrder.hobbies id) =
        tc.sections.hobbies.map (fun e => some (RecordV.hobby e)) :=
  c3_resolution_preserves_order piTest "T" shOrder profBA (by decide) (by decide)
    ⟨by decide, by decide, by decide, by decide, by decide, by decide, by decide⟩

theorem processFile_skip (n : String) (v : Yaml → Except String RecordV)
    (sh : SharedData) (st : FileState) (h : nonMapping st = true) :
    processFile n v sh st = .ok sh := by
  cases st with
  | absent => rfl
  | badYaml => rfl
  | content y => cases y <;> simp [nonMapping] at h <;> rfl

theorem state_setState_self (f : DataFile) (d : DataDir) (st : FileState) :
    f.state (f.setState d st) = st := by
  cases f <;> rfl

theorem state_setState_ne (f g : DataFile) (d : DataDir) (st : FileState)
    (h : ¬(g = f)) : g.state (f.setState d st) = g.state d := by
  cases f <;> cases g <;> simp_all [DataFile.state, DataFile.setState]

theorem path_setState (f : DataFile) (d : DataDir) (st : FileState) :
    (f.setState d st).path = d.path := by
  cases f <;> rfl

theorem dirExists_setState (f : DataFile) (d : DataDir) (st : FileState) :
    (f.setState d st).dirExists = d.dirExists := by
  cases f <;> rfl

theorem state_default (g : DataFile) : g.state {} = .absent := by
  cases g <;> rfl

theorem loadFiles_congr_absent (d : DataDir) (f : DataFile) (files : List DataFile)
    (sh : SharedData) (h : nonMapping (f.state d) = true) :
    loadFiles d sh files = loadFiles (f.setState d .absent) sh files := by
  induction files generalizing sh with
  | nil => rfl
  | cons g rest ih =>
    by_cases hgf : g = f
    · subst hgf
      rw [loadFiles, loadFiles, processFile_skip _ _ _ _ h, state_setState_self]
      exact ih sh
    · rw [loadFiles, loadFiles, state_setState_ne f g d _ hgf]
      cases hpr : processFile g.filename g.validator sh (g.state d) with
      | error er => rfl
      | ok sh' => exact ih sh'

theorem validateItems_error_of_bad (v : Yaml → Except String RecordV)
    (items : List (String × Yaml))
    (h : ∃ pr ∈ items, exceptErrored (v pr.2) = true) :
    ∃ e, validateItems v items = .error e := by
  induction items with
  | nil => obtain ⟨pr, hm, _⟩ := h; simp at hm
  | cons pr0 rest ih =>
    obtain ⟨id0, y0⟩ := pr0
    cases hv : v y0 with
    | error e0 => exact ⟨e0, by simp [validateItems, hv]⟩
    | ok r =>
      obtain ⟨pr, hm, hbad⟩ := h
      rcases List.mem_cons.mp hm with rfl | hmem
      · rw [hv] at hbad; simp [exceptErrored] at hbad
      · obtain ⟨e1, he1⟩ := ih ⟨pr, hmem, hbad⟩
        exact ⟨e1, by simp [validateItems, hv, he1]⟩

theorem mapExcept_ok {α β : Type} (g : α → β) (x : Except String α) (r : β)
    (h : Except.map g x = .ok r) : ∃ a, x = .ok a ∧ r = g a := by
  cases x with
  | error e => simp [Except.map] at h
  | ok a =>
    simp [Except.map] at h
    exact ⟨a, rfl, h.symm⟩

theorem validator_ok_variant (f : DataFile) :
    ∀ y r, f.validator y = .ok r → f.variantCheck r = true := by
  cases f <;> intro y r h <;>
    simp only [DataFile.validator, validateExperienceR, validateProjectR,
      validateEducationR, validateCertificationR, validateResearchPaperR,
      validateClubActivityR, validateHobbyR, validateProfileR] at h <;>
    obtain ⟨a, ha, rfl⟩ := mapExcept_ok _ _ _ h <;> rfl

theorem validateItems_all (v : Yaml → Except String RecordV) (P : RecordV → Bool)
    (hv : ∀ y r, v y = .ok r → P r = true) :
    ∀ items vitems, validateItems v items = .ok vitems →
      ∀ pr ∈ vitems, P pr.2 = true := by
  intro items
  induction items with
  | nil => intro vitems h pr hpr; cases h; simp at hpr
  | cons pr0 rest ih =>
    intro vitems h pr hpr
    obtain ⟨id0, y0⟩ := pr0
    rw [validateItems] at h
    cases hvv : v y0 with
    | error e => rw [hvv] at h; cases h
    | ok r =>
      rw [hvv] at h
      cases hrest : validateItems v rest with
      | error e => rw [hrest] at h; cases h
      | ok rs =>
        rw [hrest] at h
        cases h
        rcases List.mem_cons.mp hpr with rfl | hmem
        · exact hv y0 r hvv
        · exact ih rs hrest pr hmem

theorem setSharedField_mem (sh : SharedData) (key : String)
    (vitems : List (String × RecordV)) (hk : key ∈ sharedKeys) :
    ∃ sh', setSharedField sh key vitems = .ok sh' ∧
      getSharedField sh' key = some vitems := by
  simp [sharedKeys] at hk
  rcases hk with rfl | rfl | rfl | rfl | rfl | rfl | rfl | rfl <;> exact ⟨_, rfl, rfl⟩

/-- C1 amended: a well-known file that is present but empty or not a
mapping is skipped with a warning and the load behaves as if the file
were absent (no error, nothing applied); a present file containing an
item that fails record validation makes load_shared_data raise a data
error naming the offending file, and no SharedData is returned. -/
theorem c1_amended_fail_fast :
    (∀ (d : DataDir) (f : DataFile), nonMapping (f.state d) = true →
      load_shared_data d = load_shared_data (f.setState d .absent)) ∧
    (∀ (f : DataFile) (key : String) (items : List (String × Yaml)),
      (∃ pr ∈ items, exceptErrored (f.validator pr.2) = true) →
      ∃ e, load_shared_data (f.setState {} (.content (.map [(key, .map items)]))) =
        .error (.data ("Validation failed for " ++ f.filename ++ ": " ++ e))) := by
  constructor
  · intro d f h
    unfold load_shared_data
    rw [dirExists_setState, path_setState]
    by_cases hd : d.dirExists = true
    · simp only [hd, if_true]
      exact loadFiles_congr_absent d f fileOrder {} h
    · simp [hd]
  · intro f key items hbad
    obtain ⟨e, he⟩ := validateItems_error_of_bad f.validator items hbad
    have hne : ¬(items = []) := by
      rintro rfl
      obtain ⟨pr, hm, _⟩ := hbad
      simp at hm
    have hfalsy : (Yaml.map items).falsy = false := by
      cases items with
      | nil => exact absurd rfl hne
      | cons a l => rfl
    refine ⟨e, ?_⟩
    cases f <;>
      simp only [DataFile.validator] at he <;>
      simp [load_shared_data, fileOrder, loadFiles, processFile, processEntries,
        DataFile.setState, DataFile.state, DataFile.filename, DataFile.validator,
        hfalsy, he]

/-- Witness for C1: the empty experiences.yml behaves as an absent file,
and an experiences.yml item missing its required title field aborts the
load with a data error naming experiences.yml. -/
theorem c1_witness :
    load_shared_data dEmptyExp = load_shared_data (DataFile.experiences.setState dEmptyExp .absent) ∧
    ∃ e, load_shared_data (DataFile.experiences.setState {}
        (.content (.map [("experiences", .map [("E1", .map [("company", .str "C")])])]))) =
      .error (.data ("Validation failed for " ++ DataFile.experiences.filename ++ ": " ++ e)) :=
  ⟨c1_amended_fail_fast.1 dEmptyExp .experiences (by decide),
   c1_amended_fail_fast.2 .experiences "experiences"
     [("E1", .map [("company", .str "C")])]
     ⟨("E1", .map [("company", .str "C")]), by simp, by decide⟩⟩

/-- C9: load_shared_data selects the SharedData mapping to populate from
the top-level key found inside the file, not from the filename: for a
present well-known file whose top-level key names any SharedData field
and whose items all validate against the model class of the filename, the
validated items (carrying that model's variant) are stored under the
field named by the key. -/
theorem c9_top_level_key_selects_section (f : DataFile) (key : String)
    (items : List (String × Yaml)) (vitems : List (String × RecordV))
    (hk : key ∈ sharedKeys)
    (hval : validateItems f.validator items = .ok vitems)
    (hne : ¬(items = [])) :
    ∃ sh, load_shared_data (f.setState {} (.content (.map [(key, .map items)]))) = .ok sh ∧
      getSharedField sh key = some vitems ∧
      ∀ pr ∈ vitems, f.variantCheck pr.2 = true := by
  obtain ⟨sh', hset, hget⟩ := setSharedField_mem {} key vitems hk
  have hvar := validateItems_all f.validator f.variantCheck (validator_ok_variant f)
    items vitems hval
  have hfalsy : (Yaml.map items).falsy = false := by
    cases items with
    | nil => exact absurd rfl hne
    | cons a l => rfl
  refine ⟨sh', ?_, hget, hvar⟩
  cases f <;>
    simp only [DataFile.validator] at hval <;>
    simp [load_shared_data, fileOrder, loadFiles, processFile, processEntries,
      DataFile.setState, DataFile.state, DataFile.filename, DataFile.validator,
      hfalsy, hval, hset]

/-- Witness for C9: a projects.yml whose top-level key is experiences
populates the experiences mapping with a validated Project record. -/
theorem c9_witness :
    ∃ sh, load_shared_data (DataFile.projects.setState {}
        (.content (.map [("experiences",
          .map [("E1", .map [("name", .str "P"), ("description", .str "D")])])]))) = .ok sh ∧
      getSharedField sh "experiences" = some [("E1", RecordV.proj ⟨"P", none, "D"⟩)] ∧
      ∀ pr ∈ [("E1", RecordV.proj (⟨"P", none, "D"⟩ : Project))],
        DataFile.projects.variantCheck pr.2 = true :=
  c9_top_level_key_selects_section .projects "experiences"
    [("E1", .map [("name", .str "P"), ("description", .str "D")])]
    [("E1", RecordV.proj ⟨"P", none, "D"⟩)]
    (by decide) (by decide) (by simp)

theorem getSharedField_set_ne (sh sh' : SharedData) (key : String)
    (vitems : List (String × RecordV)) (k : String)
    (h : setSharedField sh key vitems = .ok sh') (hk : ¬(key = k)) :
    getSharedField sh' k = getSharedField sh k := by
  unfold setSharedField at h
  split_ifs at h with h1 h2 h3 h4 h5 h6 h7 h8
  all_goals try cases h
  · have hne : ¬(k = "experiences") := fun hh => hk (h1.trans hh.symm)
    unfold getSharedField
    rw [if_neg hne, if_neg hne]
  · have hne : ¬(k = "projects") := fun hh => hk (h2.trans hh.symm)
    unfold getSharedField
    rw [if_neg hne, if_neg hne]
  · have hne : ¬(k = "education") := fun hh => hk (h3.trans hh.symm)
    unfold getSharedField
    rw [if_neg hne, if_neg hne]
  · have hne : ¬(k = "certifications") := fun hh => hk (h4.trans hh.symm)
    unfold getSharedField
    rw [if_neg hne, if_neg hne]
  · have hne : ¬(k = "research_papers") := fun hh => hk (h5.trans hh.symm)
    unfold getSharedField
    rw [if_neg hne, if_neg hne]
  · have hne : ¬(k = "clubs_and_associations") := fun hh => hk (h6.trans hh.symm)
    unfold getSharedField
    rw [if_neg hne, if_neg hne]
  · have hne : ¬(k = "hobbies") := fun hh => hk (h7.trans hh.symm)
    unfold getSharedField
    rw [if_neg hne, if_neg hne]
  · have hne : ¬(k = "profiles") := fun hh => hk (h8.trans hh.symm)
    unfold getSharedField
    rw [if_neg hne, if_neg hne]

theorem processEntries_preserve (n : String) (v : Yaml → Except String RecordV)
    (k : String) :
    ∀ (entries : List (String × Yaml)) (sh sh' : SharedData),
      (∀ pr ∈ entries, ¬(pr.1 = k)) →
      processEntries n v sh entries = .ok sh' →
      getSharedField sh' k = getSharedField sh k := by
  intro entries
  induction entries with
  | nil => intro sh sh' _ h; cases h; rfl
  | cons pr0 rest ih =>
    intro sh sh' hkeys h
    obtain ⟨key0, value⟩ := pr0
    have hrest : ∀ q ∈ rest, ¬(q.1 = k) :=
      fun q hq => hkeys q (List.mem_cons_of_mem _ hq)
    cases value with
    | null =>
      simp only [processEntries, Yaml.falsy, if_true] at h
      exact ih sh sh' hrest h
    | str s =>
      simp only [processEntries, ite_self] at h
      exact ih sh sh' hrest h
    | list xs =>
      simp only [processEntries, ite_self] at h
      exact ih sh sh' hrest h
    | map items =>
      simp only [processEntries] at h
      by_cases hemp : (Yaml.map items).falsy = true
      · rw [if_pos hemp] at h
        exact ih sh sh' hrest h
      · rw [if_neg hemp] at h
        cases hv : validateItems v items with
        | error e => rw [hv] at h; cases h
        | ok vitems =>
          rw [hv] at h
          have h2 : (match setSharedField sh key0 vitems with
              | Except.error er => (Except.error er : Except Err SharedData)
              | Except.ok shx => processEntries n v shx rest) = Except.ok sh' := h
          cases hset : setSharedField sh key0 vitems with
          | error er => rw [hset] at h2; cases h2
          | ok sh1 =>
            rw [hset] at h2
            have hkey0 : ¬(key0 = k) :=
              hkeys (key0, .map items) (List.mem_cons_self _ _)
            rw [ih sh1 sh' hrest h2,
              getSharedField_set_ne sh sh1 key0 vitems k hset hkey0]

theorem processFile_preserve (n : String) (v : Yaml → Except String RecordV)
    (sh sh' : SharedData) (st : FileState) (k : String)
    (hm : st.mentions k = false)
    (h : processFile n v sh st = .ok sh') :
    getSharedField sh' k = getSharedField sh k := by
  cases st with
  | absent => cases h; rfl
  | badYaml => cases h; rfl
  | content y =>
    cases y with
    | map m =>
      have hkeys : ∀ pr ∈ m, ¬(pr.1 = k) := by
        intro pr hpr hk
        have : m.any (fun p => p.1 = k) = true :=
          List.any_eq_true.mpr ⟨pr, hpr, by simp [hk]⟩
        rw [FileState.mentions] at hm
        rw [hm] at this
        cases this
      exact processEntries_preserve n v k m sh sh' hkeys h
    | null => cases h; rfl
    | str s => cases h; rfl
    | list xs => cases h; rfl

theorem loadFiles_preserve (d : DataDir) (k : String) :
    ∀ (files : List DataFile) (sh sh' : SharedData),
      (∀ g ∈ files, (g.state d).mentions k = false) →
      loadFiles d sh files = .ok sh' →
      getSharedField sh' k = getSharedField sh k := by
  intro files
  induction files with
  | nil => intro sh sh' _ h; cases h; rfl
  | cons g rest ih =>
    intro sh sh' hms h
    rw [loadFiles] at h
    cases hpr : processFile g.filename g.validator sh (g.state d) with
    | error er => rw [hpr] at h; cases h
    | ok sh1 =>
      rw [hpr] at h
      rw [ih sh1 sh' (fun q hq => hms q (List.mem_cons_of_mem _ hq)) h,
        processFile_preserve _ _ sh sh1 _ k (hms g (List.mem_cons_self _ _)) hpr]

/-- C6 amended: an absent well-known file contributes no error and no
data (processing it leaves the accumulating SharedData unchanged), and
the corresponding SharedData mapping of a successful load is empty
provided no present file carries that section name as a top-level key; a
present file whose top-level key names the section populates it even when
the section's own file is absent. -/
theorem c6_amended_absent_file :
    (∀ (n : String) (v : Yaml → Except String RecordV) (sh : SharedData),
      processFile n v sh .absent = .ok sh) ∧
    (∀ (d : DataDir) (f : DataFile) (sh : SharedData),
      f.state d = .absent → noFileMentions d f.stem = true →
      load_shared_data d = .ok sh → getSharedField sh f.stem = some []) := by
  constructor
  · intro n v sh; rfl
  · intro d f sh habs hnm hload
    unfold load_shared_data at hload
    by_cases hd : d.dirExists = true
    · rw [if_pos hd] at hload
      have hms : ∀ g ∈ fileOrder, (g.state d).mentions f.stem = false := by
        simp only [noFileMentions, List.all_eq_true, Bool.not_eq_true'] at hnm
        exact hnm
      rw [loadFiles_preserve d f.stem fileOrder {} sh hms hload]
      cases f <;> rfl
    · rw [if_neg hd] at hload; cases hload

/-- Witness for C6: experiences.yml absent, a well-formed projects.yml
present; the experiences mapping of the loaded SharedData is empty. -/
theorem c6_witness :
    getSharedField
      { projects := [("P1", RecordV.proj ⟨"P", none, "D"⟩)] }
      DataFile.experiences.stem = some [] :=
  c6_amended_absent_file.2
    { projects_yml := .content (.map [("projects",
        .map [("P1", .map [("name", .str "P"), ("description", .str "D")])])]) }
    .experiences
    { projects := [("P1", RecordV.proj ⟨"P", none, "D"⟩)] }
    (by rfl) (by rfl) (by rfl)

theorem strList_map (xs : List String) : strList (xs.map Yaml.str) = .ok xs := by
  induction xs with
  | nil => rfl
  | cons a l ih => simp [strList, ih]

theorem optStrV_optY (o : Option String) (k : String) :
    optStrV (some (optY o)) k = .ok o := by
  cases o <;> rfl

theorem optUrlV_optY (o : Option String) (k : String)
    (h : o.all isValidUrl = true) : optUrlV (some (optY o)) k = .ok o := by
  cases o with
  | none => rfl
  | some u =>
    simp [Option.all] at h
    simp [optUrlV, optY, h]

theorem rt_personal (x : PersonalInfo) (h : x.valid = true) :
    validatePersonalInfo x.toYaml = .ok x := by
  obtain ⟨nm, ph, em, li, gh, bl, pp, py, pd, lo⟩ := x
  simp only [PersonalInfo.valid, Bool.and_eq_true] at h
  obtain ⟨⟨⟨⟨⟨h1, h2⟩, h3⟩, h4⟩, h5⟩, h6⟩ := h
  simp [PersonalInfo.toYaml, validatePersonalInfo, reqStr, optStr, optUrl,
    reqStrV, lookupR, optStrV_optY, optUrlV_optY, h1, h2, h3, h4, h5, h6]

theorem rt_skillcat (x : SkillCategory) :
    validateSkillCategory x.toYaml = .ok x := by
  obtain ⟨c, its⟩ := x
  simp [SkillCategory.toYaml, validateSkillCategory, reqStr, reqStrV, lookupR,
    strList_map]

theorem skillCatList_map (l : List SkillCategory) :
    skillCatList (l.map SkillCategory.toYaml) = .ok l := by
  induction l with
  | nil => rfl
  | cons c rest ih => simp [skillCatList, rt_skillcat, ih]

theorem rt_exp (x : Experience) (h : x.valid = true) :
    validateExperience x.toYaml = .ok x := by
  obtain ⟨t, c, d, l, bp, lk⟩ := x
  simp only [Experience.valid] at h
  simp [Experience.toYaml, validateExperience, reqStr, defStr, defStrList,
    reqStrV, defStrV, defStrListV, lookupR, optUrl, optUrlV_optY, strList_map, h]

theorem rt_proj (x : Project) (h : x.valid = true) :
    validateProject x.toYaml = .ok x := by
  obtain ⟨n, lk, d⟩ := x
  simp only [Project.valid] at h
  simp [Project.toYaml, validateProject, reqStr, reqStrV, lookupR, optUrl,
    optUrlV_optY, h]

theorem rt_edu (x : Education) : validateEducation x.toYaml = .ok x := by
  obtain ⟨i, l, d, n⟩ := x
  simp [Education.toYaml, validateEducation, reqStr, reqStrV, optStr, lookupR,
    optStrV_optY]

theorem rt_cert (x : Certification) (h : x.valid = true) :
    validateCertification x.toYaml = .ok x := by
  obtain ⟨n, i, c⟩ := x
  simp only [Certification.valid] at h
  simp [Certification.toYaml, validateCertification, reqStr, reqStrV, reqUrl,
    reqUrlV, lookupR, h]

theorem parseStatus_toStr (st : PaperStatus) : parseStatus st.toStr = .ok st := by
  cases st <;> rfl

theorem rt_paper (x : ResearchPaper) (h : x.valid = true) :
    validateResearchPaper x.toYaml = .ok x := by
  obtain ⟨t, a, st, lk⟩ := x
  simp only [ResearchPaper.valid] at h
  simp [ResearchPaper.toYaml, validateResearchPaper, reqStr, reqStrV, lookupR,
    parseStatus_toStr, optUrl, optUrlV_optY, h]

theorem rt_club (x : ClubActivity) (h : x.valid = true) :
    validateClubActivity x.toYaml = .ok x := by
  obtain ⟨n, r, d, de, lk⟩ := x
  simp only [ClubActivity.valid] at h
  simp [ClubActivity.toYaml, validateClubActivity, reqStr, reqStrV, optStr,
    lookupR, optStrV_optY, optUrl, optUrlV_optY, h]

theorem rt_hobby (x : Hobby) (h : x.valid = true) :
    validateHobby x.toYaml = .ok x := by
  obtain ⟨n, lk⟩ := x
  simp only [Hobby.valid] at h
  simp [Hobby.toYaml, validateHobby, reqStr, reqStrV, lookupR, optUrl,
    optUrlV_optY, h]

theorem rt_profile (x : Profile) : validateProfile x.toYaml = .ok x := by
  obtain ⟨t, s, sk, e1, e2, e3, e4, e5, e6, e7⟩ := x
  cases sk with
  | none =>
    simp [Profile.toYaml, validateProfile, reqStr, reqStrV, optSkills, lookupR,
      skillsY, defStrList, defStrListV, strList_map]
  | some l =>
    simp [Profile.toYaml, validateProfile, reqStr, reqStrV, optSkills, lookupR,
      skillsY, defStrList, defStrListV, strList_map, skillCatList_map]

/-- C8: for every record type, a valid record serialized to YAML in valid
schema form and validated back yields a record equal field-for-field to
the original (validity: URL-typed fields hold valid URLs where the schema
requires them). -/
theorem c8_yaml_roundtrip :
    (∀ x : PersonalInfo, x.valid = true → validatePersonalInfo x.toYaml = .ok x) ∧
    (∀ x : SkillCategory, validateSkillCategory x.toYaml = .ok x) ∧
    (∀ x : Experience, x.valid = true → validateExperience x.toYaml = .ok x) ∧
    (∀ x : Project, x.valid = true → validateProject x.toYaml = .ok x) ∧
    (∀ x : Education, validateEducation x.toYaml = .ok x) ∧
    (∀ x : Certification, x.valid = true → validateCertification x.toYaml = .ok x) ∧
    (∀ x : ResearchPaper, x.valid = true → validateResearchPaper x.toYaml = .ok x) ∧
    (∀ x : ClubActivity, x.valid = true → validateClubActivity x.toYaml = .ok x) ∧
    (∀ x : Hobby, x.valid = true → validateHobby x.toYaml = .ok x) ∧
    (∀ x : Profile, validateProfile x.toYaml = .ok x) :=
  ⟨rt_personal, rt_skillcat, rt_exp, rt_proj, rt_edu, rt_cert, rt_paper,
   rt_club, rt_hobby, rt_profile⟩

/-- Witness for C8 at one concrete record of each type. -/
theorem c8_witness :
    validatePersonalInfo (PersonalInfo.toYaml
      ⟨"N", some "1", some "e", some "https://l", some "https://g",
       some "https://b", some "https://p", some "https://y", some "https://d",
       some "NYC"⟩) = .ok
      ⟨"N", some "1", some "e", some "https://l", some "https://g",
       some "https://b", some "https://p", some "https://y", some "https://d",
       some "NYC"⟩ ∧
    validateSkillCategory (SkillCategory.toYaml ⟨"c", ["a", "b"]⟩) =
      .ok ⟨"c", ["a", "b"]⟩ ∧
    validateExperience (Experience.toYaml ⟨"t", "c", "d", "loc", ["x"], some "https://e"⟩) =
      .ok ⟨"t", "c", "d", "loc", ["x"], some "https://e"⟩ ∧
    validateProject (Project.toYaml ⟨"n", some "https://p", "d"⟩) =
      .ok ⟨"n", some "https://p", "d"⟩ ∧
    validateEducation (Education.toYaml ⟨"i", "l", "d", some "n"⟩) =
      .ok ⟨"i", "l", "d", some "n"⟩ ∧
    validateCertification (Certification.toYaml ⟨"n", "i", "https://c"⟩) =
      .ok ⟨"n", "i", "https://c"⟩ ∧
    validateResearchPaper (ResearchPaper.toYaml ⟨"t", "a", .published, some "https://r"⟩) =
      .ok ⟨"t", "a", .published, some "https://r"⟩ ∧
    validateClubActivity (ClubActivity.toYaml ⟨"n", "r", "d", some "de", some "https://k"⟩) =
      .ok ⟨"n", "r", "d", some "de", some "https://k"⟩ ∧
    validateHobby (Hobby.toYaml ⟨"n", some "https://h"⟩) =
      .ok ⟨"n", some "https://h"⟩ ∧
    validateProfile (Profile.toYaml
      ⟨"t", "s", some [⟨"c", ["i"]⟩], ["e1"], ["p1"], ["d1"], ["c1"], ["r1"], ["k1"], ["h1"]⟩) =
      .ok ⟨"t", "s", some [⟨"c", ["i"]⟩], ["e1"], ["p1"], ["d1"], ["c1"], ["r1"], ["k1"], ["h1"]⟩ :=
  ⟨c8_yaml_roundtrip.1 _ (by decide),
   c8_yaml_roundtrip.2.1 _,
   c8_yaml_roundtrip.2.2.1 _ (by decide),
   c8_yaml_roundtrip.2.2.2.1 _ (by decide),
   c8_yaml_roundtrip.2.2.2.2.1 _,
   c8_yaml_roundtrip.2.2.2.2.2.1 _ (by decide),
   c8_yaml_roundtrip.2.2.2.2.2.2.1 _ (by decide),
   c8_yaml_roundtrip.2.2.2.2.2.2.2.1 _ (by decide),
   c8_yaml_roundtrip.2.2.2.2.2.2.2.2.1 _ (by decide),
   c8_yaml_roundtrip.2.2.2.2.2.2.2.2.2 _⟩

end Resumodel
